import Mathlib

/-!
Verification development for the team-flow activity tracker.

Strings are modelled as lists of characters (`Str`); the JavaScript string
operations used by the source map to list operations: `includes` is infix
containment, `startsWith` / `endsWith` are prefix / suffix tests,
`toLowerCase` maps `Char.toLower` over the characters, and
`replace(x, y)` with one-character pattern replaces the first occurrence.
JavaScript numbers holding activity counts are natural numbers; averages
(float division in the source) are modelled as rationals.
-/

/-- Model of a JavaScript string: its list of characters. -/
abbrev Str := List Char

/-- Coerce a Lean string literal into the model. -/
def str (s : String) : Str := s.toList

/-- JavaScript `q.includes(sub)`: substring containment. -/
def jsIncludes (q sub : Str) : Bool := decide (sub <:+: q)

/-- JavaScript `s.toLowerCase()` (ASCII characters only are affected, which
matches the queries and logins handled by this code base). -/
def jsLower (s : Str) : Str := s.map Char.toLower

/-- JavaScript `s.replace('-', ' ')`: replace the first hyphen only. -/
def replaceFirstHyphen : Str → Str
  | [] => []
  | c :: rest => if c = '-' then ' ' :: rest else c :: replaceFirstHyphen rest

/-- JavaScript truthiness of a string: empty string is falsy. -/
def strTruthy (s : Str) : Bool := !s.isEmpty

/-- JavaScript truthiness of an optional string field (`undefined` and the
empty string are falsy). -/
def optTruthy : Option Str → Bool
  | none => false
  | some s => strTruthy s

/-- JavaScript `a || b` on optional string fields: `b` when `a` is falsy. -/
def orElseStr (a : Option Str) (b : Str) : Str :=
  match a with
  | none => b
  | some s => if s.isEmpty then b else s

/-- Byte-wise string comparison used to model the `localeCompare` sort
comparators (the keys compared are ASCII date strings, for which locale
comparison coincides with code-unit order). -/
def strLe : Str → Str → Bool
  | [], _ => true
  | _ :: _, [] => false
  | a :: as, b :: bs =>
    if a = b then strLe as bs
    else decide (a < b)

theorem strLe_total (a b : Str) : strLe a b = true ∨ strLe b a = true := by
  induction a generalizing b with
  | nil => left; rfl
  | cons x xs ih =>
    cases b with
    | nil => right; rfl
    | cons y ys =>
      by_cases hxy : x = y
      · subst hxy
        simpa [strLe] using ih ys
      · rcases lt_or_gt_of_ne hxy with h | h
        · left; simp [strLe, hxy, h]
        · right
          have hyx : y ≠ x := fun e => hxy e.symm
          simp [strLe, hyx, h]

theorem strLe_trans {a b c : Str} (h₁ : strLe a b = true) (h₂ : strLe b c = true) :
    strLe a c = true := by
  induction a generalizing b c with
  | nil => rfl
  | cons x xs ih =>
    cases b with
    | nil => simp [strLe] at h₁
    | cons y ys =>
      cases c with
      | nil => simp [strLe] at h₂
      | cons z zs =>
        by_cases hxy : x = y
        · subst hxy
          simp only [strLe, if_pos rfl] at h₁
          by_cases hyz : x = z
          · subst hyz
            simp only [strLe, if_pos rfl] at h₂ ⊢
            exact ih h₁ h₂
          · simp only [strLe, if_neg hyz] at h₂ ⊢
            exact h₂
        · simp only [strLe, if_neg hxy, decide_eq_true_eq] at h₁
          by_cases hyz : y = z
          · subst hyz
            simp [strLe, hxy, h₁]
          · simp only [strLe, if_neg hyz, decide_eq_true_eq] at h₂
            have hxz : x < z := lt_trans h₁ h₂
            have : x ≠ z := ne_of_lt hxz
            simp [strLe, this, hxz]

/-- Digits of a natural number, most significant first. -/
def natDigits (n : Nat) : Str :=
  (Nat.toDigits 10 n)

/-- Zero-pad a digit string on the left to the given width. -/
def padLeft (w : Nat) (s : Str) : Str :=
  List.replicate (w - s.length) '0' ++ s

/-- One month of activity counts for one member
(`{issues, pullRequests, commits, reviews}` in the source). -/
structure Counts where
  issues : Nat
  pullRequests : Nat
  commits : Nat
  reviews : Nat
  deriving Repr, DecidableEq

/-- `MemberActivity` from `types/index.ts`: one contributor with a map from
`YYYY-MM` keys to monthly counts, modelled as an association list in
insertion order (JavaScript object key order for these string keys). -/
structure MemberActivity where
  login : Str
  name : Option Str
  avatar_url : Str
  organization : Option Str
  organizationDisplayName : Option Str
  activities : List (Str × Counts)
  deriving Repr, DecidableEq

/-- Grand total of the four fields over all monthly buckets of a record. -/
def grandTotal (a : MemberActivity) : Nat :=
  a.activities.foldl
    (fun sum p => sum + p.2.issues + p.2.pullRequests + p.2.commits + p.2.reviews) 0

/-- `entities` component of `ParsedQuery`. -/
structure QueryEntities where
  members : List Str
  organizations : List Str
  dateRange : Option (Str × Str)
  activityTypes : List Str
  comparison : Option Str
  aggregation : Option Str
  deriving Repr, DecidableEq

/-- `filters` component of `ParsedQuery`. -/
structure QueryFilters where
  minValue : Option Nat
  maxValue : Option Nat
  sortBy : Option Str
  sortOrder : Option Str
  limit : Option Nat
  deriving Repr, DecidableEq

/-- `ParsedQuery` from `naturalLanguageQueryService.ts`. -/
structure ParsedQuery where
  intent : Str
  entities : QueryEntities
  filters : QueryFilters
  deriving Repr, DecidableEq

/-- Comparison markers of `detectIntent`. -/
def hasComparisonMarker (q : Str) : Bool :=
  jsIncludes q (str "比較") || jsIncludes q (str "vs") || jsIncludes q (str "対")

/-- Analysis markers of `detectIntent`. -/
def hasAnalysisMarker (q : Str) : Bool :=
  jsIncludes q (str "分析") || jsIncludes q (str "傾向") || jsIncludes q (str "パターン")

/-- Aggregation markers of `detectIntent`. -/
def hasAggregationMarker (q : Str) : Bool :=
  jsIncludes q (str "合計") || jsIncludes q (str "平均") || jsIncludes q (str "集計")

/-- Ranking markers of `detectIntent`. -/
def hasRankingMarker (q : Str) : Bool :=
  jsIncludes q (str "上位") || jsIncludes q (str "最も") || jsIncludes q (str "多い")

/-- Timeline markers of `detectIntent` (the source tests `期間` twice). -/
def hasTimelineMarker (q : Str) : Bool :=
  jsIncludes q (str "期間") || jsIncludes q (str "いつ") || jsIncludes q (str "期間")

/-- `NaturalLanguageQueryService.detectIntent`: the fixed if-chain of
keyword tests over the lowercased query. -/
def detectIntent (q : Str) : Str :=
  if hasComparisonMarker q then str "comparison"
  else if hasAnalysisMarker q then str "analysis"
  else if hasAggregationMarker q then str "aggregation"
  else if hasRankingMarker q then str "ranking"
  else if hasTimelineMarker q then str "timeline"
  else str "data"

/-- `NaturalLanguageQueryService.extractMembers`: substring-match every known
login (and its first-hyphen-to-space variant) against the query; the
all-members phrases expand to the full login list. -/
def extractMembers (activities : List MemberActivity) (q : Str) : List Str :=
  let allMembers := activities.map (·.login)
  let members := allMembers.filter (fun m =>
    jsIncludes q (jsLower m) || jsIncludes q (jsLower (replaceFirstHyphen m)))
  if jsIncludes q (str "全員") || jsIncludes q (str "すべて") || jsIncludes q (str "全体") then
    allMembers
  else
    members

/-- `NaturalLanguageQueryService.extractOrganizations`: fixed organization
token matching, with the comparison branch defaulting to both configured
organizations when none matched. -/
def extractOrganizations (q : Str) : List Str :=
  let organizations :=
    if hasComparisonMarker q then
      let o1 := if jsIncludes q (str "macromill-mint") || jsIncludes q (str "mint") then
        [str "macromill-mint"] else []
      let o2 := if jsIncludes q (str "macromill") then [str "macromill"] else []
      let both := o1 ++ o2
      if both.length = 0 then [str "macromill", str "macromill-mint"] else both
    else
      let o1 := if jsIncludes q (str "macromill-mint") || jsIncludes q (str "mint") then
        [str "macromill-mint"] else []
      let o2 := if jsIncludes q (str "macromill") && !jsIncludes q (str "macromill-mint") then
        [str "macromill"] else []
      o1 ++ o2
  if jsIncludes q (str "全組織") || jsIncludes q (str "すべての組織") then
    [str "macromill", str "macromill-mint"]
  else
    organizations

/-- `NaturalLanguageQueryService.extractActivityTypes`: substring match
against the four fixed vocabularies. -/
def extractActivityTypes (q : Str) : List Str :=
  (if jsIncludes q (str "イシュー") || jsIncludes q (str "issue") then [str "issues"] else []) ++
  (if jsIncludes q (str "プルリク") || jsIncludes q (str "pr") || jsIncludes q (str "pull request")
    then [str "pullRequests"] else []) ++
  (if jsIncludes q (str "コミット") || jsIncludes q (str "commit") then [str "commits"] else []) ++
  (if jsIncludes q (str "レビュー") || jsIncludes q (str "review") then [str "reviews"] else [])

/-- `NaturalLanguageQueryService.extractComparison`. -/
def extractComparison (q : Str) : Option Str :=
  if hasComparisonMarker q then some (str "comparison") else none

/-- `NaturalLanguageQueryService.extractAggregation`. -/
def extractAggregation (q : Str) : Option Str :=
  if jsIncludes q (str "合計") || jsIncludes q (str "sum") then some (str "sum")
  else if jsIncludes q (str "平均") || jsIncludes q (str "avg") then some (str "average")
  else if jsIncludes q (str "最大") || jsIncludes q (str "max") then some (str "max")
  else if jsIncludes q (str "最小") || jsIncludes q (str "min") then some (str "min")
  else none

/-- `NaturalLanguageQueryService.extractSortBy`. -/
def extractSortBy (q : Str) : Option Str :=
  if jsIncludes q (str "イシュー") || jsIncludes q (str "issue") then some (str "issues")
  else if jsIncludes q (str "プルリク") || jsIncludes q (str "pr") then some (str "pullRequests")
  else if jsIncludes q (str "コミット") || jsIncludes q (str "commit") then some (str "commits")
  else if jsIncludes q (str "レビュー") || jsIncludes q (str "review") then some (str "reviews")
  else if jsIncludes q (str "合計") || jsIncludes q (str "total") then some (str "total")
  else none

/-- `NaturalLanguageQueryService.extractSortOrder`. -/
def extractSortOrder (q : Str) : Option Str :=
  if jsIncludes q (str "多い") || jsIncludes q (str "上位") || jsIncludes q (str "最大") then
    some (str "desc")
  else if jsIncludes q (str "少ない") || jsIncludes q (str "下位") || jsIncludes q (str "最小") then
    some (str "asc")
  else none

/-- Value of a digit run, mirroring `parseInt` on a matched digit group. -/
def digitRunToNat (run : Str) : Nat :=
  run.foldl (fun acc c => acc * 10 + (c.toNat - '0'.toNat)) 0

/-- Leftmost match of the pattern "digit run immediately followed by one of
the keywords", the shape of the `(\d+)以上|(\d+)個以上|(\d+)件以上` style
regular expressions in the source. -/
def scanNumThenKw (kws : List Str) : Str → Option Nat
  | [] => none
  | c :: rest =>
    if c.isDigit then
      let run := (c :: rest).takeWhile Char.isDigit
      let after := (c :: rest).dropWhile Char.isDigit
      if kws.any (fun kw => decide (kw <+: after)) then some (digitRunToNat run)
      else scanNumThenKw kws rest
    else scanNumThenKw kws rest

/-- `NaturalLanguageQueryService.extractMinValue`. -/
def extractMinValue (q : Str) : Option Nat :=
  scanNumThenKw [str "以上", str "個以上", str "件以上"] q

/-- `NaturalLanguageQueryService.extractMaxValue`. -/
def extractMaxValue (q : Str) : Option Nat :=
  scanNumThenKw [str "以下", str "個以下", str "件以下"] q

/-- Leftmost match of `上位(\d+)|(\d+)位まで|(\d+)人`: at each position the
first alternative (keyword then digits) is tried before the digit-first
alternatives, following the regular expression alternation order. -/
def scanLimit : Str → Option Nat
  | [] => none
  | c :: rest =>
    let s := c :: rest
    let afterKw := s.drop (str "上位").length
    if decide ((str "上位") <+: s) && (afterKw.takeWhile Char.isDigit).length != 0 then
      some (digitRunToNat (afterKw.takeWhile Char.isDigit))
    else if c.isDigit then
      let after := s.dropWhile Char.isDigit
      if decide ((str "位まで") <+: after) || decide ((str "人") <+: after) then
        some (digitRunToNat (s.takeWhile Char.isDigit))
      else scanLimit rest
    else scanLimit rest

/-- `NaturalLanguageQueryService.extractLimit`. -/
def extractLimit (q : Str) : Option Nat := scanLimit q

/-- A calendar date, modelling the mutable `moment` object state. -/
structure MDate where
  year : Nat
  month : Nat
  day : Nat
  deriving Repr, DecidableEq

/-- Leap year test (Gregorian). -/
def isLeapYear (y : Nat) : Bool :=
  (y % 4 = 0 && y % 100 != 0) || y % 400 = 0

/-- Number of days in a calendar month. -/
def daysInMonth (y m : Nat) : Nat :=
  if m = 2 then (if isLeapYear y then 29 else 28)
  else if m = 4 || m = 6 || m = 9 || m = 11 then 30
  else 31

/-- `moment.subtract(k, 'months')`: move back `k` months, clamping the day
once to the length of the target month. -/
def subMonths (k : Nat) (d : MDate) : MDate :=
  let idx := d.year * 12 + (d.month - 1) - k
  let y := idx / 12
  let m := idx % 12 + 1
  { year := y, month := m, day := min d.day (daysInMonth y m) }

/-- `moment.subtract(1, 'month')`. -/
def subMonth (d : MDate) : MDate := subMonths 1 d

/-- `moment.startOf('month')`. -/
def startOfMonth (d : MDate) : MDate := { d with day := 1 }

/-- `moment.endOf('month')` (at date granularity). -/
def endOfMonth (d : MDate) : MDate := { d with day := daysInMonth d.year d.month }

/-- Previous calendar day. -/
def prevDay (d : MDate) : MDate :=
  if d.day > 1 then { d with day := d.day - 1 }
  else
    let y := if d.month = 1 then d.year - 1 else d.year
    let m := if d.month = 1 then 12 else d.month - 1
    { year := y, month := m, day := daysInMonth y m }

/-- `moment.subtract(1, 'week')`: seven days back. -/
def subWeek (d : MDate) : MDate := (prevDay ∘ prevDay ∘ prevDay ∘ prevDay ∘ prevDay ∘ prevDay ∘ prevDay) d

/-- `moment.format('YYYY-MM-DD')`. -/
def fmtDate (d : MDate) : Str :=
  padLeft 4 (natDigits d.year) ++ ['-'] ++ padLeft 2 (natDigits d.month) ++ ['-'] ++ padLeft 2 (natDigits d.day)

/-- `NaturalLanguageQueryService.extractDateRange`. The source mutates the
single `moment` object `now` in place, so the embedding threads the date
state through each `subtract` / `startOf` / `endOf` call in evaluation
order exactly as the source performs them. -/
def extractDateRange (q : Str) (now : MDate) : Option (Str × Str) :=
  if jsIncludes q (str "今月") then
    let n1 := startOfMonth now
    let s := fmtDate n1
    let n2 := endOfMonth n1
    some (s, fmtDate n2)
  else if jsIncludes q (str "先月") then
    let n1 := startOfMonth (subMonth now)
    let s := fmtDate n1
    let n2 := endOfMonth (subMonth n1)
    some (s, fmtDate n2)
  else if jsIncludes q (str "過去1週間") || jsIncludes q (str "先週") then
    let n1 := subWeek now
    some (fmtDate n1, fmtDate n1)
  else if jsIncludes q (str "過去1ヶ月") then
    let n1 := subMonth now
    some (fmtDate n1, fmtDate n1)
  else if jsIncludes q (str "過去3ヶ月") then
    let n1 := subMonths 3 now
    some (fmtDate n1, fmtDate n1)
  else
    none

/-- `NaturalLanguageQueryService.parseQuery`: lowercase the query, then run
every extractor. The parse-time clock is passed explicitly. -/
def parseQuery (activities : List MemberActivity) (now : MDate) (query : Str) : ParsedQuery :=
  let lowerQuery := jsLower query
  { intent := detectIntent lowerQuery
    entities :=
      { members := extractMembers activities lowerQuery
        organizations := extractOrganizations lowerQuery
        dateRange := extractDateRange lowerQuery now
        activityTypes := extractActivityTypes lowerQuery
        comparison := extractComparison lowerQuery
        aggregation := extractAggregation lowerQuery }
    filters :=
      { minValue := extractMinValue lowerQuery
        maxValue := extractMaxValue lowerQuery
        sortBy := extractSortBy lowerQuery
        sortOrder := extractSortOrder lowerQuery
        limit := extractLimit lowerQuery } }

/-- Per-record sum of `issues` over all monthly buckets. -/
def totalIssuesOf (a : MemberActivity) : Nat :=
  a.activities.foldl (fun s p => s + p.2.issues) 0

/-- Per-record sum of `pullRequests` over all monthly buckets. -/
def totalPRsOf (a : MemberActivity) : Nat :=
  a.activities.foldl (fun s p => s + p.2.pullRequests) 0

/-- Per-record sum of `commits` over all monthly buckets. -/
def totalCommitsOf (a : MemberActivity) : Nat :=
  a.activities.foldl (fun s p => s + p.2.commits) 0

/-- Per-record sum of `reviews` over all monthly buckets. -/
def totalReviewsOf (a : MemberActivity) : Nat :=
  a.activities.foldl (fun s p => s + p.2.reviews) 0

/-- JavaScript `a || b` on two optional string fields. -/
def orElseOpt (a b : Option Str) : Option Str :=
  if optTruthy a then a else b

/-- Row shape produced by `executeDataQuery` and `executeRanking`. -/
structure Row where
  login : Str
  name : Str
  organization : Option Str
  issues : Nat
  pullRequests : Nat
  commits : Nat
  reviews : Nat
  total : Nat
  deriving Repr, DecidableEq

/-- Projection of one record onto a result row, as both `executeDataQuery`
and `executeRanking` compute it. -/
def projectRow (a : MemberActivity) : Row :=
  let ti := totalIssuesOf a
  let tp := totalPRsOf a
  let tc := totalCommitsOf a
  let tr := totalReviewsOf a
  { login := a.login
    name := orElseStr a.name a.login
    organization := orElseOpt a.organizationDisplayName a.organization
    issues := ti, pullRequests := tp, commits := tc, reviews := tr
    total := ti + tp + tc + tr }

/-- Numeric row field selected by a `sortBy` key (the parser only ever
produces the five keys below; other keys read `undefined` in the source and
are never reached). -/
def rowValue (key : Str) (r : Row) : Nat :=
  if key = str "issues" then r.issues
  else if key = str "pullRequests" then r.pullRequests
  else if key = str "commits" then r.commits
  else if key = str "reviews" then r.reviews
  else if key = str "total" then r.total
  else 0

/-- Comparator of the row sorts: ascending on the key when `sortOrder` is
`asc`, descending otherwise (the source comparator returns `a - b` or
`b - a`). -/
def rowLe (sortOrder : Option Str) (key : Str) (a b : Row) : Bool :=
  if sortOrder = some (str "asc") then decide (rowValue key a ≤ rowValue key b)
  else decide (rowValue key b ≤ rowValue key a)

/-- JavaScript `if (limit) result.splice(limit)`: keep the first `limit`
rows; a zero or absent limit is falsy and leaves the rows unchanged. -/
def applyLimit (limit : Option Nat) (rows : List Row) : List Row :=
  match limit with
  | some n => if n = 0 then rows else rows.take n
  | none => rows

/-- One organization entry built by `executeComparison`. -/
structure OrgComparison where
  organization : Str
  organizationDisplayName : Str
  issues : Nat
  pullRequests : Nat
  commits : Nat
  reviews : Nat
  total : Nat
  memberCount : Nat
  averageIssues : ℚ
  averagePRs : ℚ
  averageCommits : ℚ
  averageReviews : ℚ
  deriving Repr, DecidableEq

/-- `summary` object of the comparison result. -/
structure ComparisonSummary where
  totalOrganizations : Nat
  totalMembers : Nat
  totalIssues : Nat
  totalPRs : Nat
  totalCommits : Nat
  totalReviews : Nat
  totalActivities : Nat
  deriving Repr, DecidableEq

/-- One insight sentence pushed by `generateComparisonInsights`; each
constructor stands for one distinct `insights.push(...)` site in the source
(the Japanese message text is abstracted away, the emission condition is
what the claims are about). `First` means the sentence reporting that the
first compared organization leads. -/
inductive InsightKind where
  | memberCountFirst
  | memberCountSecond
  | totalFirst
  | totalSecond
  | averageFirst
  | averageSecond
  | issuesFirst
  | pullRequestsFirst
  | commitsFirst
  | reviewsFirst
  deriving Repr, DecidableEq

/-- `NaturalLanguageQueryService.generateComparisonInsights`: compares the
first two organization entries; the member-count, total and average rules
have both directions, while the four per-activity-type rules only test
whether the first entry exceeds the second. -/
def generateComparisonInsights (comparison : List OrgComparison) : List InsightKind :=
  match comparison with
  | c1 :: c2 :: _ =>
    (if c1.memberCount > c2.memberCount then [.memberCountFirst]
     else if c2.memberCount > c1.memberCount then [.memberCountSecond] else []) ++
    (if c1.total > c2.total then [.totalFirst]
     else if c2.total > c1.total then [.totalSecond] else []) ++
    (let avg1 : ℚ := if c1.memberCount > 0 then (c1.total : ℚ) / c1.memberCount else 0
     let avg2 : ℚ := if c2.memberCount > 0 then (c2.total : ℚ) / c2.memberCount else 0
     if avg1 > avg2 then [.averageFirst]
     else if avg2 > avg1 then [.averageSecond] else []) ++
    (if c1.issues > c2.issues then [.issuesFirst] else []) ++
    (if c1.pullRequests > c2.pullRequests then [.pullRequestsFirst] else []) ++
    (if c1.commits > c2.commits then [.commitsFirst] else []) ++
    (if c1.reviews > c2.reviews then [.reviewsFirst] else [])
  | _ => []

/-- `data` payload of the analysis result. -/
structure AnalysisData where
  totalMembers : Nat
  totalIssues : Nat
  totalPRs : Nat
  totalCommits : Nat
  totalReviews : Nat
  averageIssues : ℚ
  averagePRs : ℚ
  averageCommits : ℚ
  averageReviews : ℚ
  deriving Repr, DecidableEq

/-- `sum` component of the aggregation result. -/
structure AggSums where
  issues : Nat
  pullRequests : Nat
  commits : Nat
  reviews : Nat
  deriving Repr, DecidableEq

/-- `average` component of the aggregation result. -/
structure AggAverages where
  issues : ℚ
  pullRequests : ℚ
  commits : ℚ
  reviews : ℚ
  deriving Repr, DecidableEq

/-- `data` payload of the aggregation result. -/
structure AggregationData where
  sum : AggSums
  average : AggAverages
  deriving Repr, DecidableEq

/-- One month of the timeline result. -/
structure TrendEntry where
  month : Str
  issues : Nat
  pullRequests : Nat
  commits : Nat
  reviews : Nat
  total : Nat
  deriving Repr, DecidableEq

/-- The `data` field of a `QueryResult` (typed union of the shapes the
source assigns to its `any`-typed field; `nullData` is the error path). -/
inductive QueryData where
  | rows (rs : List Row)
  | comparisonPayload (comparison : List OrgComparison) (summary : ComparisonSummary)
      (insights : List InsightKind)
  | analysisPayload (a : AnalysisData)
  | aggregationPayload (a : AggregationData)
  | trendPayload (ts : List TrendEntry)
  | nullData
  deriving Repr, DecidableEq

/-- `filters` field of a `QueryResult`. -/
structure ResultFilters where
  members : Option (List Str)
  organizations : Option (List Str)
  dateRange : Option (Str × Str)
  activityTypes : Option (List Str)
  deriving Repr, DecidableEq

/-- `QueryResult` from `naturalLanguageQueryService.ts`. -/
structure QueryResult where
  type : Str
  data : QueryData
  message : Str
  query : Str
  filters : Option ResultFilters
  deriving Repr, DecidableEq

/-- Member filter stage of `filterActivities`: applied only when the parsed
member list is non-empty. -/
def filterByMembers (parsed : ParsedQuery) (l : List MemberActivity) : List MemberActivity :=
  if parsed.entities.members.length > 0 then
    l.filter (fun a => decide (a.login ∈ parsed.entities.members))
  else l

/-- Organization filter stage of `filterActivities`: the source guards with
`activity.organization && ...includes(...)`, so records without a truthy
organization are dropped. -/
def filterByOrganizations (parsed : ParsedQuery) (l : List MemberActivity) : List MemberActivity :=
  if parsed.entities.organizations.length > 0 then
    l.filter (fun a =>
      match a.organization with
      | some o => strTruthy o && decide (o ∈ parsed.entities.organizations)
      | none => false)
  else l

/-- Year-and-month index of a `YYYY-MM` or `YYYY-MM-DD` string, used to model
the month-granularity `isBetween` comparison of `moment` objects. -/
def parseYM (s : Str) : Nat :=
  digitRunToNat (s.take 4) * 12 + digitRunToNat ((s.drop 5).take 2)

/-- Date-range filter stage of `filterActivities`: keep a record when at
least one of its monthly bucket keys falls inside the inclusive range. -/
def filterByDateRange (parsed : ParsedQuery) (l : List MemberActivity) : List MemberActivity :=
  match parsed.entities.dateRange with
  | some r =>
    l.filter (fun a => a.activities.any (fun p =>
      decide (parseYM r.1 ≤ parseYM p.1) && decide (parseYM p.1 ≤ parseYM r.2)))
  | none => l

/-- Per-record scalar of the min/max filter stage: the source reads
`activityTypes?.[0]`; when that first element is truthy the reduce switches
on it (summing only that field for the four known names, all four fields
otherwise), and when it is absent or falsy the grand total is used. -/
def activityScalar (activityTypes : List Str) (a : MemberActivity) : Nat :=
  match activityTypes.head? with
  | some t =>
    if t.isEmpty then grandTotal a
    else a.activities.foldl (fun sum p =>
      if t = str "issues" then sum + p.2.issues
      else if t = str "pullRequests" then sum + p.2.pullRequests
      else if t = str "commits" then sum + p.2.commits
      else if t = str "reviews" then sum + p.2.reviews
      else sum + p.2.issues + p.2.pullRequests + p.2.commits + p.2.reviews) 0
  | none => grandTotal a

/-- Min/max filter stage of `filterActivities`, applied when either bound is
set: a record is dropped when its scalar is below `minValue` or above
`maxValue`. -/
def filterByMinMax (parsed : ParsedQuery) (l : List MemberActivity) : List MemberActivity :=
  if parsed.filters.minValue.isSome || parsed.filters.maxValue.isSome then
    l.filter (fun a =>
      let totalValue := activityScalar parsed.entities.activityTypes a
      (match parsed.filters.minValue with
        | some m => decide (m ≤ totalValue)
        | none => true) &&
      (match parsed.filters.maxValue with
        | some m => decide (totalValue ≤ m)
        | none => true))
  else l

/-- `NaturalLanguageQueryService.filterActivities`: the four stages in the
fixed source order (members, organizations, date range, min/max). -/
def filterActivities (activities : List MemberActivity) (parsed : ParsedQuery) : List MemberActivity :=
  filterByMinMax parsed
    (filterByDateRange parsed
      (filterByOrganizations parsed
        (filterByMembers parsed activities)))

/-- `NaturalLanguageQueryService.executeDataQuery`: project, sort when a
truthy `sortBy` is present, truncate by a truthy `limit`. -/
def executeDataQuery (parsed : ParsedQuery) (activities : List MemberActivity)
    (originalQuery : Str) : QueryResult :=
  let result := activities.map projectRow
  let result :=
    match parsed.filters.sortBy with
    | some key =>
      if key.isEmpty then result
      else List.insertionSort (fun a b => rowLe parsed.filters.sortOrder key a b = true) result
    | none => result
  let result := applyLimit parsed.filters.limit result
  { type := str "data"
    data := .rows result
    message := natDigits result.length ++ str "件のデータが見つかりました"
    query := originalQuery
    filters := some
      { members := some parsed.entities.members
        organizations := some parsed.entities.organizations
        dateRange := parsed.entities.dateRange
        activityTypes := some parsed.entities.activityTypes } }

/-- One organization entry of `executeComparison`, with its hardcoded
display-name mapping and zero-guarded averages. -/
def buildOrgComparison (activities : List MemberActivity) (org : Str) : OrgComparison :=
  let orgActivities := activities.filter (fun a => a.organization = some org)
  let ti := orgActivities.foldl (fun s a => s + totalIssuesOf a) 0
  let tp := orgActivities.foldl (fun s a => s + totalPRsOf a) 0
  let tc := orgActivities.foldl (fun s a => s + totalCommitsOf a) 0
  let tr := orgActivities.foldl (fun s a => s + totalReviewsOf a) 0
  let n := orgActivities.length
  { organization := org
    organizationDisplayName :=
      if org = str "macromill" then str "Macromill" else str "Macromill Mint"
    issues := ti, pullRequests := tp, commits := tc, reviews := tr
    total := ti + tp + tc + tr
    memberCount := n
    averageIssues := if n > 0 then (ti : ℚ) / n else 0
    averagePRs := if n > 0 then (tp : ℚ) / n else 0
    averageCommits := if n > 0 then (tc : ℚ) / n else 0
    averageReviews := if n > 0 then (tr : ℚ) / n else 0 }

/-- `NaturalLanguageQueryService.executeComparison`: with more than one
resolved organization, build one entry per organization in the parsed order
plus summary and insights; otherwise fall back to the data query. -/
def executeComparison (parsed : ParsedQuery) (activities : List MemberActivity)
    (originalQuery : Str) : QueryResult :=
  if parsed.entities.organizations.length > 1 then
    let comparison := parsed.entities.organizations.map (buildOrgComparison activities)
    let summary : ComparisonSummary :=
      { totalOrganizations := comparison.length
        totalMembers := comparison.foldl (fun s o => s + o.memberCount) 0
        totalIssues := comparison.foldl (fun s o => s + o.issues) 0
        totalPRs := comparison.foldl (fun s o => s + o.pullRequests) 0
        totalCommits := comparison.foldl (fun s o => s + o.commits) 0
        totalReviews := comparison.foldl (fun s o => s + o.reviews) 0
        totalActivities := comparison.foldl (fun s o => s + o.total) 0 }
    { type := str "comparison"
      data := .comparisonPayload comparison summary (generateComparisonInsights comparison)
      message := List.intercalate (str "と") parsed.entities.organizations ++ str "の詳細比較結果です"
      query := originalQuery
      filters := some
        { members := none
          organizations := some parsed.entities.organizations
          dateRange := none
          activityTypes := none } }
  else executeDataQuery parsed activities originalQuery

/-- `NaturalLanguageQueryService.executeAnalysis`. -/
def executeAnalysis (_parsed : ParsedQuery) (activities : List MemberActivity)
    (originalQuery : Str) : QueryResult :=
  let n := activities.length
  let ti := activities.foldl (fun s a => s + totalIssuesOf a) 0
  let tp := activities.foldl (fun s a => s + totalPRsOf a) 0
  let tc := activities.foldl (fun s a => s + totalCommitsOf a) 0
  let tr := activities.foldl (fun s a => s + totalReviewsOf a) 0
  { type := str "analysis"
    data := .analysisPayload
      { totalMembers := n
        totalIssues := ti, totalPRs := tp, totalCommits := tc, totalReviews := tr
        averageIssues := if n > 0 then (ti : ℚ) / n else 0
        averagePRs := if n > 0 then (tp : ℚ) / n else 0
        averageCommits := if n > 0 then (tc : ℚ) / n else 0
        averageReviews := if n > 0 then (tr : ℚ) / n else 0 }
    message := natDigits n ++ str "メンバーの活動分析結果です"
    query := originalQuery
    filters := none }

/-- `NaturalLanguageQueryService.executeAggregation`: nested reduces for the
four sums, averages divided only when the record list is non-empty and left
at their zero initialisation otherwise. -/
def executeAggregation (_parsed : ParsedQuery) (activities : List MemberActivity)
    (originalQuery : Str) : QueryResult :=
  let n := activities.length
  let si := activities.foldl (fun s a => s + totalIssuesOf a) 0
  let sp := activities.foldl (fun s a => s + totalPRsOf a) 0
  let sc := activities.foldl (fun s a => s + totalCommitsOf a) 0
  let sr := activities.foldl (fun s a => s + totalReviewsOf a) 0
  { type := str "summary"
    data := .aggregationPayload
      { sum := { issues := si, pullRequests := sp, commits := sc, reviews := sr }
        average :=
          if n > 0 then
            { issues := (si : ℚ) / n, pullRequests := (sp : ℚ) / n
              commits := (sc : ℚ) / n, reviews := (sr : ℚ) / n }
          else { issues := 0, pullRequests := 0, commits := 0, reviews := 0 } }
    message := natDigits n ++ str "メンバーの集計結果です"
    query := originalQuery
    filters := none }

/-- `NaturalLanguageQueryService.executeRanking`: identical projection to the
data query, but the sort always runs and its key defaults to `total` when
`sortBy` is falsy. -/
def executeRanking (parsed : ParsedQuery) (activities : List MemberActivity)
    (originalQuery : Str) : QueryResult :=
  let ranking := activities.map projectRow
  let sortBy := orElseStr parsed.filters.sortBy (str "total")
  let ranking :=
    List.insertionSort (fun a b => rowLe parsed.filters.sortOrder sortBy a b = true) ranking
  let ranking := applyLimit parsed.filters.limit ranking
  { type := str "data"
    data := .rows ranking
    message := sortBy ++ str "のランキングです"
    query := originalQuery
    filters := none }

/-- Accumulate one monthly bucket into the timeline map (a JavaScript object
keyed by month, modelled as an association list in insertion order). -/
def addTimelineBucket (tl : List (Str × Counts)) (month : Str) (d : Counts) :
    List (Str × Counts) :=
  if tl.any (fun p => p.1 = month) then
    tl.map (fun p =>
      if p.1 = month then
        (p.1, { issues := p.2.issues + d.issues
                pullRequests := p.2.pullRequests + d.pullRequests
                commits := p.2.commits + d.commits
                reviews := p.2.reviews + d.reviews })
      else p)
  else tl ++ [(month, d)]

/-- `NaturalLanguageQueryService.executeTimeline`: sum the four fields per
month over all records, then sort the months ascending. -/
def executeTimeline (_parsed : ParsedQuery) (activities : List MemberActivity)
    (originalQuery : Str) : QueryResult :=
  let timeline := activities.foldl
    (fun tl a => a.activities.foldl (fun tl2 p => addTimelineBucket tl2 p.1 p.2) tl) []
  let sorted := List.insertionSort (fun a b => strLe a.1 b.1 = true) timeline
  { type := str "trend"
    data := .trendPayload (sorted.map (fun p =>
      { month := p.1
        issues := p.2.issues, pullRequests := p.2.pullRequests
        commits := p.2.commits, reviews := p.2.reviews
        total := p.2.issues + p.2.pullRequests + p.2.commits + p.2.reviews }))
    message := str "期間別の活動推移です"
    query := originalQuery
    filters := none }

/-- `NaturalLanguageQueryService.executeQuery`: filter first, then dispatch
on the detected intent. -/
def executeQuery (activities : List MemberActivity) (parsed : ParsedQuery)
    (originalQuery : Str) : QueryResult :=
  let filteredActivities := filterActivities activities parsed
  if parsed.intent = str "comparison" then
    executeComparison parsed filteredActivities originalQuery
  else if parsed.intent = str "analysis" then
    executeAnalysis parsed filteredActivities originalQuery
  else if parsed.intent = str "aggregation" then
    executeAggregation parsed filteredActivities originalQuery
  else if parsed.intent = str "ranking" then
    executeRanking parsed filteredActivities originalQuery
  else if parsed.intent = str "timeline" then
    executeTimeline parsed filteredActivities originalQuery
  else
    executeDataQuery parsed filteredActivities originalQuery

/-- `NaturalLanguageQueryService.processQuery`: parse then execute. The
embedding is total, so the catch-all error path of the source (which would
return a `data`-typed result with `nullData`) is never taken here; every
path below returns through `executeQuery`. -/
def processQuery (activities : List MemberActivity) (now : MDate) (query : Str) : QueryResult :=
  executeQuery activities (parseQuery activities now query) query

/-- Value stored under one key of an old-format `months` map. -/
structure MonthBucket where
  monthStart : Option Str
  monthEnd : Option Str
  lastUpdated : Option Str
  activities : Option (List MemberActivity)
  deriving Repr, DecidableEq

/-- Parsed content of one persisted JSON blob. The source branches on which
fields happen to be present, so the model mirrors the dynamic shape with
optional fields (a flat organization snapshot has `activities`, a new-format
month file additionally has `monthKey`, an old-format file has `months`). -/
structure FileData where
  organization : Option Str
  monthKey : Option Str
  monthStart : Option Str
  monthEnd : Option Str
  lastUpdated : Option Str
  activities : Option (List MemberActivity)
  months : Option (List (Str × MonthBucket))
  deriving Repr, DecidableEq

/-- The data directory: file name to parsed content, in creation order. -/
abbrev Store := List (Str × FileData)

/-- Read a file by name (`fs.readFileSync` + `JSON.parse` on an existing
file, `none` when `fs.existsSync` is false). -/
def readFile (name : Str) : Store → Option FileData
  | [] => none
  | (n, c) :: rest => if n = name then some c else readFile name rest

/-- `fs.writeFileSync`: create or overwrite. -/
def writeFile (name : Str) (c : FileData) (fs : Store) : Store :=
  (name, c) :: fs.filter (fun p => decide (p.1 ≠ name))

/-- `fs.unlinkSync`. -/
def deleteFile (name : Str) (fs : Store) : Store :=
  fs.filter (fun p => decide (p.1 ≠ name))

/-- `fs.existsSync`. -/
def existsFile (name : Str) (fs : Store) : Bool :=
  (readFile name fs).isSome

/-- `DataService.getMonthKey`: `moment(date).format('YYYY-MM')`, which for
the well-formed `YYYY-MM-DD` date strings this service handles is the first
seven characters of the date. -/
def getMonthKey (date : Str) : Str := date.take 7

/-- `DataService.getMonthlyDataFile`: the per-month bucket file when a month
key is given, the aggregate monthly file otherwise. -/
def getMonthlyDataFile (orgName : Str) (monthKey : Option Str) : Str :=
  match monthKey with
  | some k => orgName ++ str "-monthly-" ++ k ++ str ".json"
  | none => orgName ++ str "-monthly-activities.json"

/-- `DataService.saveMonthlyActivities`: unconditionally write the bucket
file derived from `monthStart`, stamping `lastUpdated` with the current
time. -/
def saveMonthlyActivities (orgName monthStart monthEnd : Str)
    (activities : List MemberActivity) (now : Str) (fs : Store) : Store :=
  let monthKey := getMonthKey monthStart
  writeFile (getMonthlyDataFile orgName (some monthKey))
    { organization := some orgName
      monthKey := some monthKey
      monthStart := some monthStart
      monthEnd := some monthEnd
      lastUpdated := some now
      activities := some activities
      months := none } fs

/-- `DataService.isMonthFetched`: existence of the derived bucket file. -/
def isMonthFetched (orgName monthStart : Str) (fs : Store) : Bool :=
  existsFile (getMonthlyDataFile orgName (some (getMonthKey monthStart))) fs

/-- `DataService.deleteMonthlyActivities`: unlink the bucket file when it
exists, reporting whether a deletion happened. -/
def deleteMonthlyActivities (orgName monthStart : Str) (fs : Store) : Bool × Store :=
  let filePath := getMonthlyDataFile orgName (some (getMonthKey monthStart))
  if existsFile filePath fs then (true, deleteFile filePath fs)
  else (false, fs)

/-- One entry of the fetched-months listing. -/
structure FetchedMonth where
  monthKey : Str
  monthStart : Str
  monthEnd : Str
  lastUpdated : Str
  deriving Repr, DecidableEq

/-- Loop body of `DataService.getFetchedMonths`: read one listed file and
collect its new-format entry (truthy `monthKey`) or its old-format `months`
map entries. -/
def fetchedMonthStep (fs : Store) (acc : List FetchedMonth) (file : Str) : List FetchedMonth :=
  match readFile file fs with
  | some d =>
    if optTruthy d.monthKey then
      acc ++ [{ monthKey := d.monthKey.getD []
                monthStart := d.monthStart.getD []
                monthEnd := d.monthEnd.getD []
                lastUpdated := d.lastUpdated.getD [] }]
    else
      match d.months with
      | some ms =>
        acc ++ ms.map (fun p =>
          { monthKey := p.1
            monthStart := p.2.monthStart.getD []
            monthEnd := p.2.monthEnd.getD []
            lastUpdated := p.2.lastUpdated.getD [] })
      | none => acc
  | none => acc

/-- `DataService.getFetchedMonths`: list the per-month bucket files of the
organization (name filter excluding the aggregate file), read each, and
sort the collected entries ascending by `monthStart`. -/
def getFetchedMonths (orgName : Str) (fs : Store) : List FetchedMonth :=
  let files := fs.map (·.1)
  let monthFiles := files.filter (fun f =>
    decide ((orgName ++ str "-monthly-") <+: f) &&
    decide ((str ".json") <:+ f) &&
    decide (f ≠ orgName ++ str "-monthly-activities.json"))
  let months := monthFiles.foldl (fetchedMonthStep fs) []
  List.insertionSort (fun a b => strLe a.monthStart b.monthStart = true) months

/-- Outcome of the `POST /api/fetch-monthly-data` route. -/
inductive FetchOutcome where
  | badRequest
  | alreadyExists (monthStart monthEnd : Str)
  | saved (count : Nat)
  deriving Repr, DecidableEq

/-- The `POST /api/fetch-monthly-data` route of `index.ts`: validate the
request, refuse with the already-exists error when the derived bucket is
fetched and `forceUpdate` is false (no write), otherwise save the freshly
fetched records. -/
def fetchMonthlyData (orgName monthStart monthEnd : Str) (forceUpdate : Bool)
    (activities : List MemberActivity) (now : Str) (fs : Store) : FetchOutcome × Store :=
  if !strTruthy orgName || !strTruthy monthStart || !strTruthy monthEnd then
    (.badRequest, fs)
  else if isMonthFetched orgName monthStart fs && !forceUpdate then
    (.alreadyExists monthStart monthEnd, fs)
  else
    (.saved activities.length, saveMonthlyActivities orgName monthStart monthEnd activities now fs)

/-- `DataService.loadOrganizationActivities`: read the flat per-organization
snapshot file and re-attribute each record to the organization named in the
file, with the hardcoded display-name mapping. -/
def loadOrganizationActivities (orgName : Str) (fs : Store) : Option (List MemberActivity) :=
  match readFile (orgName ++ str "-activities.json") fs with
  | none => none
  | some d =>
    match d.activities with
    | some acts => some (acts.map (fun m =>
        { login := m.login
          name := m.name
          avatar_url := m.avatar_url
          organization := d.organization
          organizationDisplayName :=
            if d.organization = some (str "macromill") then some (str "Macromill")
            else d.organization
          activities := m.activities }))
    | none => none

/-- `DataService.getOrganizationLastUpdated` (`data.lastUpdated || null`). -/
def getOrganizationLastUpdated (orgName : Str) (fs : Store) : Option Str :=
  match readFile (orgName ++ str "-activities.json") fs with
  | none => none
  | some d =>
    match d.lastUpdated with
    | some lu => if lu.isEmpty then none else some lu
    | none => none

/-- Per-organization statistics of the aggregate read path. -/
structure OrgStat where
  count : Nat
  lastUpdated : Option Str
  deriving Repr, DecidableEq

/-- Loop body of `DataService.loadAllOrganizationsActivities`: read one
configured organization own flat snapshot file and accumulate its records
and statistics. -/
def loadAllOrgsStep (fs : Store) (acc : List MemberActivity × List (Str × OrgStat))
    (org : Str) : List MemberActivity × List (Str × OrgStat) :=
  match loadOrganizationActivities org fs with
  | some as =>
    (acc.1 ++ as, acc.2 ++ [(org, { count := as.length
                                    lastUpdated := getOrganizationLastUpdated org fs })])
  | none => (acc.1, acc.2 ++ [(org, { count := 0, lastUpdated := none })])

/-- `DataService.loadAllOrganizationsActivities`: read each configured
organization own flat snapshot file (the organizations list stands for the
injected `organizations.json` configuration); when that produced at least
one record return it, otherwise fall back to the combined
`all-organizations-activities.json` flat file. No weekly or monthly bucket
file is consulted on this path. -/
def loadAllOrganizationsActivities (organizations : List Str) (fs : Store) :
    List MemberActivity × List (Str × OrgStat) :=
  let step := organizations.foldl (loadAllOrgsStep fs) ([], [])
  if step.1.length > 0 then step
  else
    match readFile (str "all-organizations-activities.json") fs with
    | some d =>
      match d.activities with
      | some as =>
        let lu := match d.lastUpdated with
          | some v => if v.isEmpty then none else some v
          | none => none
        (as, organizations.map (fun org =>
          (org, { count := (as.filter (fun a =>
                   match a.organization with
                   | some o => strTruthy o && decide (o = org)
                   | none => false)).length
                  lastUpdated := lu })))
      | none => step
    | none => step

/-- The `mm-kado` record of the mock fixture in
`__tests__/naturalLanguageQueryService.test.ts`. -/
def fixMmKado : MemberActivity :=
  { login := str "mm-kado"
    name := some (str "mm-kado")
    avatar_url := str "https://example.com/avatar1.jpg"
    organization := some (str "macromill")
    organizationDisplayName := some (str "macromill")
    activities :=
      [ (str "2025-07", { issues := 10, pullRequests := 5, commits := 20, reviews := 15 })
      , (str "2025-08", { issues := 8, pullRequests := 3, commits := 15, reviews := 12 }) ] }

/-- The `test-user` record of the same mock fixture. -/
def fixTestUser : MemberActivity :=
  { login := str "test-user"
    name := some (str "Test User")
    avatar_url := str "https://example.com/avatar2.jpg"
    organization := some (str "macromill-mint")
    organizationDisplayName := some (str "macromill-mint")
    activities :=
      [ (str "2025-07", { issues := 5, pullRequests := 2, commits := 10, reviews := 8 }) ] }

/-- The two-organization mock fixture of the test suite. -/
def mockActivities : List MemberActivity := [fixMmKado, fixTestUser]

/-- The organization comparison query of the test suite
(`macromillとmacromill-mintを比較して`). -/
def testQueryCompare : Str := str "macromillとmacromill-mintを比較して"

/-- Organization names of the comparison entries carried by a result. -/
def comparisonOrgList : QueryData → List Str
  | .comparisonPayload cs _ _ => cs.map (·.organization)
  | _ => []

/-- A left fold adding `f` of each element equals the initial value plus the
sum of the mapped list. -/
theorem foldl_add_map {α : Type} (f : α → Nat) :
    ∀ (l : List α) (n : Nat), l.foldl (fun s x => s + f x) n = n + (l.map f).sum := by
  intro l
  induction l with
  | nil => intro n; simp
  | cons x xs ih => intro n; simp only [List.foldl_cons, List.map_cons, List.sum_cons, ih]; omega

/-- The four-field fold of `grandTotal` equals the sum of per-month grand
totals. -/
theorem grandTotal_eq_sum (a : MemberActivity) :
    grandTotal a =
      (a.activities.map
        (fun p => p.2.issues + p.2.pullRequests + p.2.commits + p.2.reviews)).sum := by
  have h : ∀ (l : List (Str × Counts)) (n : Nat),
      l.foldl (fun s p => s + p.2.issues + p.2.pullRequests + p.2.commits + p.2.reviews) n =
        n + (l.map (fun p => p.2.issues + p.2.pullRequests + p.2.commits + p.2.reviews)).sum := by
    intro l
    induction l with
    | nil => intro n; simp
    | cons x xs ih => intro n; simp only [List.foldl_cons, List.map_cons, List.sum_cons, ih]; omega
  simpa using h a.activities 0

theorem totalIssuesOf_eq_sum (a : MemberActivity) :
    totalIssuesOf a = (a.activities.map (fun p => p.2.issues)).sum := by
  simpa using foldl_add_map (fun p : Str × Counts => p.2.issues) a.activities 0

theorem totalPRsOf_eq_sum (a : MemberActivity) :
    totalPRsOf a = (a.activities.map (fun p => p.2.pullRequests)).sum := by
  simpa using foldl_add_map (fun p : Str × Counts => p.2.pullRequests) a.activities 0

theorem totalCommitsOf_eq_sum (a : MemberActivity) :
    totalCommitsOf a = (a.activities.map (fun p => p.2.commits)).sum := by
  simpa using foldl_add_map (fun p : Str × Counts => p.2.commits) a.activities 0

theorem totalReviewsOf_eq_sum (a : MemberActivity) :
    totalReviewsOf a = (a.activities.map (fun p => p.2.reviews)).sum := by
  simpa using foldl_add_map (fun p : Str × Counts => p.2.reviews) a.activities 0

/-- Reading the file just written returns its content. -/
theorem readFile_writeFile_same (name : Str) (c : FileData) (fs : Store) :
    readFile name (writeFile name c fs) = some c := by
  simp [readFile, writeFile]

/-- Reading a deleted file fails. -/
theorem readFile_deleteFile_same (name : Str) (fs : Store) :
    readFile name (deleteFile name fs) = none := by
  induction fs with
  | nil => rfl
  | cons p rest ih =>
    by_cases h : p.1 = name
    · simpa [deleteFile, h] using ih
    · simpa [deleteFile, readFile, h] using ih

/-- Elements of the accumulator survive a fold whose step preserves them. -/
theorem mem_foldl_of_mem {α β : Type} (step : List β → α → List β)
    (hstep : ∀ acc a x, x ∈ acc → x ∈ step acc a) :
    ∀ (l : List α) (acc : List β) (x : β), x ∈ acc → x ∈ l.foldl step acc := by
  intro l
  induction l with
  | nil => intro acc x hx; exact hx
  | cons a as ih => intro acc x hx; exact ih _ _ (hstep acc a x hx)

instance : IsTotal FetchedMonth (fun a b => strLe a.monthStart b.monthStart = true) :=
  ⟨fun a b => strLe_total a.monthStart b.monthStart⟩

instance : IsTrans FetchedMonth (fun a b => strLe a.monthStart b.monthStart = true) :=
  ⟨fun _ _ _ h₁ h₂ => strLe_trans h₁ h₂⟩

/-- Claim C2: for every query string the detected intent follows the fixed
precedence comparison, analysis, aggregation, ranking, timeline, data,
first match wins; in particular a query containing both a comparison marker
and a ranking marker is classified as comparison, not ranking. -/
theorem c2_detectIntent_precedence (q : Str) :
    (hasComparisonMarker q = true → detectIntent q = str "comparison") ∧
    (hasComparisonMarker q = false → hasAnalysisMarker q = true →
      detectIntent q = str "analysis") ∧
    (hasComparisonMarker q = false → hasAnalysisMarker q = false →
      hasAggregationMarker q = true → detectIntent q = str "aggregation") ∧
    (hasComparisonMarker q = false → hasAnalysisMarker q = false →
      hasAggregationMarker q = false → hasRankingMarker q = true →
      detectIntent q = str "ranking") ∧
    (hasComparisonMarker q = false → hasAnalysisMarker q = false →
      hasAggregationMarker q = false → hasRankingMarker q = false →
      hasTimelineMarker q = true → detectIntent q = str "timeline") ∧
    (hasComparisonMarker q = false → hasAnalysisMarker q = false →
      hasAggregationMarker q = false → hasRankingMarker q = false →
      hasTimelineMarker q = false → detectIntent q = str "data") ∧
    (hasComparisonMarker q = true → hasRankingMarker q = true →
      detectIntent q = str "comparison") := by
  refine ⟨?_, ?_, ?_, ?_, ?_, ?_, ?_⟩ <;> intros <;> simp [detectIntent, *]

/-- Witness for C2 at the concrete query `比較上位` carrying both a
comparison marker and a ranking marker. -/
theorem c2_detectIntent_precedence_witness :
    hasComparisonMarker (str "比較上位") = true ∧
    hasRankingMarker (str "比較上位") = true ∧
    detectIntent (str "比較上位") = str "comparison" :=
  ⟨by decide, by decide,
    (c2_detectIntent_precedence (str "比較上位")).2.2.2.2.2.2 (by decide) (by decide)⟩

/-- Claim C4: the source mutates the shared `moment` object, so parsing
`先月` (last month) with the clock at 2025-08-15 yields a range that starts
on 2025-07-01 but ends on 2025-06-30, the last day of the month two months
back; the range does not cover a single calendar month and its start does
not precede its end. -/
theorem c4_lastMonth_range_bug :
    extractDateRange (str "先月") { year := 2025, month := 8, day := 15 } =
      some (str "2025-07-01", str "2025-06-30") ∧
    strLe (str "2025-07-01") (str "2025-06-30") = false := by decide

/-- Claim C7: every sum field of the aggregation result equals the sum of
that field over every monthly bucket of every record, and every average
field equals the sum divided by the record count when that count is
positive and zero when the collection is empty. -/
theorem c7_aggregation_sums_averages (parsed : ParsedQuery)
    (activities : List MemberActivity) (q : Str) :
    ∃ a : AggregationData,
      (executeAggregation parsed activities q).data = QueryData.aggregationPayload a ∧
      a.sum.issues =
        (activities.map (fun r => (r.activities.map (fun p => p.2.issues)).sum)).sum ∧
      a.sum.pullRequests =
        (activities.map (fun r => (r.activities.map (fun p => p.2.pullRequests)).sum)).sum ∧
      a.sum.commits =
        (activities.map (fun r => (r.activities.map (fun p => p.2.commits)).sum)).sum ∧
      a.sum.reviews =
        (activities.map (fun r => (r.activities.map (fun p => p.2.reviews)).sum)).sum ∧
      (0 < activities.length →
        a.average.issues = (a.sum.issues : ℚ) / activities.length ∧
        a.average.pullRequests = (a.sum.pullRequests : ℚ) / activities.length ∧
        a.average.commits = (a.sum.commits : ℚ) / activities.length ∧
        a.average.reviews = (a.sum.reviews : ℚ) / activities.length) ∧
      (activities.length = 0 →
        a.average = { issues := 0, pullRequests := 0, commits := 0, reviews := 0 }) := by
  have hsi : activities.foldl (fun s a => s + totalIssuesOf a) 0 =
      (activities.map (fun r => (r.activities.map (fun p => p.2.issues)).sum)).sum := by
    have h := foldl_add_map
      (fun r : MemberActivity => (r.activities.map (fun p => p.2.issues)).sum) activities 0
    simpa [totalIssuesOf_eq_sum] using h
  have hsp : activities.foldl (fun s a => s + totalPRsOf a) 0 =
      (activities.map (fun r => (r.activities.map (fun p => p.2.pullRequests)).sum)).sum := by
    have h := foldl_add_map
      (fun r : MemberActivity => (r.activities.map (fun p => p.2.pullRequests)).sum) activities 0
    simpa [totalPRsOf_eq_sum] using h
  have hsc : activities.foldl (fun s a => s + totalCommitsOf a) 0 =
      (activities.map (fun r => (r.activities.map (fun p => p.2.commits)).sum)).sum := by
    have h := foldl_add_map
      (fun r : MemberActivity => (r.activities.map (fun p => p.2.commits)).sum) activities 0
    simpa [totalCommitsOf_eq_sum] using h
  have hsr : activities.foldl (fun s a => s + totalReviewsOf a) 0 =
      (activities.map (fun r => (r.activities.map (fun p => p.2.reviews)).sum)).sum := by
    have h := foldl_add_map
      (fun r : MemberActivity => (r.activities.map (fun p => p.2.reviews)).sum) activities 0
    simpa [totalReviewsOf_eq_sum] using h
  refine ⟨_, rfl, ?_, ?_, ?_, ?_, ?_, ?_⟩
  · exact hsi
  · exact hsp
  · exact hsc
  · exact hsr
  · intro hn
    refine ⟨?_, ?_, ?_, ?_⟩ <;>
      simp only [show (activities.length > 0) = (0 < activities.length) from rfl, if_pos hn]
  · intro h0
    simp [h0]

/-- Witness for C7 at the two-record mock fixture. -/
theorem c7_aggregation_witness :
    ∃ a : AggregationData,
      (executeAggregation (parseQuery mockActivities ⟨2025, 8, 15⟩ (str "合計"))
        mockActivities (str "合計")).data = QueryData.aggregationPayload a ∧
      a.sum.issues = 23 ∧ a.average.issues = (23 : ℚ) / 2 := by
  obtain ⟨a, hdata, hsum, _, _, _, havg, _⟩ :=
    c7_aggregation_sums_averages (parseQuery mockActivities ⟨2025, 8, 15⟩ (str "合計"))
      mockActivities (str "合計")
  refine ⟨a, hdata, ?_, ?_⟩
  · rw [hsum]; decide
  · have h := (havg (by decide)).1
    rw [h, hsum]
    norm_num [mockActivities, fixMmKado, fixTestUser]

/-- Claim C8: processing the empty query raises nothing and returns a
`data`-typed result, but its data is the full projected row list of the
loaded records, not `null`; at the two-record test fixture the data is the
two projected rows. -/
theorem c8_empty_query_returns_rows (activities : List MemberActivity) (now : MDate) :
    (processQuery activities now (str "")).type = str "data" ∧
    (∃ rs, (processQuery activities now (str "")).data = QueryData.rows rs) ∧
    (processQuery activities now (str "")).data ≠ QueryData.nullData ∧
    (processQuery mockActivities now (str "")).data =
      QueryData.rows (mockActivities.map projectRow) := by
  have hrows : (processQuery activities now (str "")).data =
      QueryData.rows
        ((filterActivities activities (parseQuery activities now (str ""))).map projectRow) := rfl
  refine ⟨rfl, ⟨_, hrows⟩, ?_, rfl⟩
  rw [hrows]
  simp

/-- Claim C5: processing the comparison query of the test suite against the
two-organization fixture yields a comparison-typed result, but its data is
the wrapped analysis object whose organization entries are ordered
`[macromill-mint, macromill]` (the `mint` token is tested first), not
`[macromill, macromill-mint]` as the test asserts. -/
theorem c5_comparison_fixture_order (now : MDate) :
    (processQuery mockActivities now testQueryCompare).type = str "comparison" ∧
    comparisonOrgList (processQuery mockActivities now testQueryCompare).data =
      [str "macromill-mint", str "macromill"] ∧
    comparisonOrgList (processQuery mockActivities now testQueryCompare).data ≠
      [str "macromill", str "macromill-mint"] := by
  have h2 : comparisonOrgList (processQuery mockActivities now testQueryCompare).data =
      [str "macromill-mint", str "macromill"] := rfl
  refine ⟨rfl, h2, ?_⟩
  rw [h2]
  decide

/-- Scalar prescribed by the wording of claim C3: the single matched first
activity type field when exactly one type was detected, the grand total
across all four fields when zero or more than one were detected. -/
def claimedScalar (activityTypes : List Str) (a : MemberActivity) : Nat :=
  match activityTypes with
  | [t] =>
    (a.activities.map (fun p =>
      if t = str "issues" then p.2.issues
      else if t = str "pullRequests" then p.2.pullRequests
      else if t = str "commits" then p.2.commits
      else if t = str "reviews" then p.2.reviews
      else p.2.issues + p.2.pullRequests + p.2.commits + p.2.reviews)).sum
  | _ => (a.activities.map (fun p =>
      p.2.issues + p.2.pullRequests + p.2.commits + p.2.reviews)).sum

/-- Min/max filter prescribed by the wording of claim C3, for comparison
with the source filter. -/
def claimedMinMaxFilter (parsed : ParsedQuery) (l : List MemberActivity) :
    List MemberActivity :=
  l.filter (fun a =>
    let v := claimedScalar parsed.entities.activityTypes a
    (match parsed.filters.minValue with
      | some m => decide (m ≤ v)
      | none => true) &&
    (match parsed.filters.maxValue with
      | some m => decide (v ≤ m)
      | none => true))

/-- Parsed query with two detected activity types and a minimum bound. -/
def cexQueryC3 : ParsedQuery :=
  { intent := str "data"
    entities :=
      { members := [], organizations := [], dateRange := none
        activityTypes := [str "issues", str "pullRequests"]
        comparison := none, aggregation := none }
    filters :=
      { minValue := some 5, maxValue := none, sortBy := none
        sortOrder := none, limit := none } }

/-- Record whose pull requests dominate while its first detected type field
(issues) is zero. -/
def cexRecordC3 : MemberActivity :=
  { login := str "pr-heavy", name := none, avatar_url := []
    organization := none, organizationDisplayName := none
    activities :=
      [(str "2025-07", { issues := 0, pullRequests := 10, commits := 0, reviews := 0 })] }

/-- Counterexample to claim C3: with two detected activity types the source
filter sums only the first type (issues, giving 0), dropping the record,
while the claimed grand-total fallback (10) would keep it. -/
theorem c3_minmax_counterexample :
    filterByMinMax cexQueryC3 [cexRecordC3] = [] ∧
    filterActivities [cexRecordC3] cexQueryC3 = [] ∧
    claimedMinMaxFilter cexQueryC3 [cexRecordC3] = [cexRecordC3] ∧
    claimedScalar cexQueryC3.entities.activityTypes cexRecordC3 = 10 := by decide

/-- Claim C3 as amended: the min/max stage keeps exactly the records of its
input whose scalar lies within the optional bounds, where the scalar sums
the first detected activity type field over all months whenever at least
one type was detected (with the grand total as fallback for an unknown or
empty first type), and the grand total across all four fields when no type
was detected. -/
theorem c3_filterByMinMax_spec (parsed : ParsedQuery) (l : List MemberActivity)
    (a : MemberActivity) :
    (a ∈ filterByMinMax parsed l ↔
      a ∈ l ∧
      ((parsed.filters.minValue.isSome ∨ parsed.filters.maxValue.isSome) →
        (∀ m, parsed.filters.minValue = some m →
          m ≤ activityScalar parsed.entities.activityTypes a) ∧
        (∀ m, parsed.filters.maxValue = some m →
          activityScalar parsed.entities.activityTypes a ≤ m))) ∧
    activityScalar parsed.entities.activityTypes a =
      (match parsed.entities.activityTypes.head? with
       | some t =>
         if t.isEmpty then
           (a.activities.map (fun p =>
             p.2.issues + p.2.pullRequests + p.2.commits + p.2.reviews)).sum
         else if t = str "issues" then (a.activities.map (fun p => p.2.issues)).sum
         else if t = str "pullRequests" then
           (a.activities.map (fun p => p.2.pullRequests)).sum
         else if t = str "commits" then (a.activities.map (fun p => p.2.commits)).sum
         else if t = str "reviews" then (a.activities.map (fun p => p.2.reviews)).sum
         else
           (a.activities.map (fun p =>
             p.2.issues + p.2.pullRequests + p.2.commits + p.2.reviews)).sum
       | none =>
         (a.activities.map (fun p =>
           p.2.issues + p.2.pullRequests + p.2.commits + p.2.reviews)).sum) := by
  constructor
  · by_cases hb : (parsed.filters.minValue.isSome || parsed.filters.maxValue.isSome) = true
    · have hb' : parsed.filters.minValue.isSome ∨ parsed.filters.maxValue.isSome := by
        simpa [Bool.or_eq_true] using hb
      simp only [filterByMinMax, hb, if_true, List.mem_filter]
      rcases hmin : parsed.filters.minValue with _ | m <;>
        rcases hmax : parsed.filters.maxValue with _ | M <;>
          simp_all [Bool.and_eq_true, decide_eq_true_eq]
    · have hmin : parsed.filters.minValue = none := by
        cases h : parsed.filters.minValue <;> simp_all
      have hmax : parsed.filters.maxValue = none := by
        cases h : parsed.filters.maxValue <;> simp_all
      simp [filterByMinMax, hmin, hmax]
  · rcases hts : parsed.entities.activityTypes.head? with _ | t
    · simp only [activityScalar, hts, grandTotal_eq_sum]
    · simp only [activityScalar, hts]
      by_cases he : t.isEmpty
      · simp only [he, if_true, grandTotal_eq_sum]
      · simp only [he, if_false]
        by_cases h1 : t = str "issues"
        · simpa [h1] using foldl_add_map (fun p : Str × Counts => p.2.issues) a.activities 0
        · by_cases h2 : t = str "pullRequests"
          · simpa [h1, h2] using
              foldl_add_map (fun p : Str × Counts => p.2.pullRequests) a.activities 0
          · by_cases h3 : t = str "commits"
            · simpa [h1, h2, h3] using
                foldl_add_map (fun p : Str × Counts => p.2.commits) a.activities 0
            · by_cases h4 : t = str "reviews"
              · simpa [h1, h2, h3, h4] using
                  foldl_add_map (fun p : Str × Counts => p.2.reviews) a.activities 0
              · have h := grandTotal_eq_sum a
                simp only [grandTotal] at h
                simpa [h1, h2, h3, h4] using h

/-- Query with a single detected activity type and a minimum bound, used to
instantiate the amended C3 theorem. -/
def keepQueryC3 : ParsedQuery :=
  { intent := str "data"
    entities :=
      { members := [], organizations := [], dateRange := none
        activityTypes := [str "pullRequests"]
        comparison := none, aggregation := none }
    filters :=
      { minValue := some 5, maxValue := none, sortBy := none
        sortOrder := none, limit := none } }

/-- Witness for the amended C3 theorem: the pull-request-heavy record passes
the minimum bound when the single detected type is `pullRequests`. -/
theorem c3_filterByMinMax_spec_witness :
    cexRecordC3 ∈ filterByMinMax keepQueryC3 [cexRecordC3] := by
  apply ((c3_filterByMinMax_spec keepQueryC3 [cexRecordC3] cexRecordC3).1).mpr
  refine ⟨by decide, fun _ => ⟨?_, ?_⟩⟩
  · intro m hm
    have hm5 : m = 5 := by
      have : (some 5 : Option Nat) = some m := hm
      exact (Option.some.inj this).symm
    subst hm5
    decide
  · intro m hm
    exact Option.noConfusion hm

/-- Membership in a one-branch conditional singleton. -/
theorem mem_ite_singleton {x y : InsightKind} {p : Prop} [Decidable p] :
    (x ∈ if p then [y] else ([] : List InsightKind)) ↔ p ∧ x = y := by
  split_ifs with h <;> simp [h]

/-- Membership in a two-branch conditional singleton. -/
theorem mem_ite_pair {x y z : InsightKind} {p q : Prop} [Decidable p] [Decidable q] :
    (x ∈ if p then [y] else if q then [z] else ([] : List InsightKind)) ↔
      (p ∧ x = y) ∨ (¬p ∧ q ∧ x = z) := by
  split_ifs <;> simp [*]

/-- Comparison entry leading only on pull requests. -/
def cexOrgFirst : OrgComparison :=
  { organization := str "macromill", organizationDisplayName := str "Macromill"
    issues := 0, pullRequests := 5, commits := 0, reviews := 0
    total := 5, memberCount := 0
    averageIssues := 0, averagePRs := 0, averageCommits := 0, averageReviews := 0 }

/-- Comparison entry leading only on issues. -/
def cexOrgSecond : OrgComparison :=
  { organization := str "macromill-mint", organizationDisplayName := str "Macromill Mint"
    issues := 5, pullRequests := 0, commits := 0, reviews := 0
    total := 5, memberCount := 0
    averageIssues := 0, averagePRs := 0, averageCommits := 0, averageReviews := 0 }

/-- Counterexample to claim C6: the two entries differ strictly on issues
(the second organization leads), yet the emitted insights mention only the
pull-request lead of the first organization; no issues insight exists. -/
theorem c6_insights_counterexample :
    generateComparisonInsights [cexOrgFirst, cexOrgSecond] =
      [InsightKind.pullRequestsFirst] ∧
    cexOrgSecond.issues > cexOrgFirst.issues ∧
    InsightKind.issuesFirst ∉ generateComparisonInsights [cexOrgFirst, cexOrgSecond] := by
  decide

/-- Claim C6 as amended: for a comparison whose entry list starts with two
organizations, the member-count, total-activity and per-member-average
insights are emitted exactly when the compared values differ strictly, in
either direction; each of the four per-activity-type insights is emitted
exactly when the FIRST listed organization strictly exceeds the second (no
insight is emitted when the second organization leads, nor on a tie). -/
theorem c6_insights_conditions (c1 c2 : OrgComparison) (rest : List OrgComparison) :
    (InsightKind.memberCountFirst ∈ generateComparisonInsights (c1 :: c2 :: rest) ↔
      c1.memberCount > c2.memberCount) ∧
    (InsightKind.memberCountSecond ∈ generateComparisonInsights (c1 :: c2 :: rest) ↔
      c2.memberCount > c1.memberCount) ∧
    (InsightKind.totalFirst ∈ generateComparisonInsights (c1 :: c2 :: rest) ↔
      c1.total > c2.total) ∧
    (InsightKind.totalSecond ∈ generateComparisonInsights (c1 :: c2 :: rest) ↔
      c2.total > c1.total) ∧
    (InsightKind.averageFirst ∈ generateComparisonInsights (c1 :: c2 :: rest) ↔
      (if c1.memberCount > 0 then (c1.total : ℚ) / c1.memberCount else 0) >
      (if c2.memberCount > 0 then (c2.total : ℚ) / c2.memberCount else 0)) ∧
    (InsightKind.averageSecond ∈ generateComparisonInsights (c1 :: c2 :: rest) ↔
      (if c2.memberCount > 0 then (c2.total : ℚ) / c2.memberCount else 0) >
      (if c1.memberCount > 0 then (c1.total : ℚ) / c1.memberCount else 0)) ∧
    (InsightKind.issuesFirst ∈ generateComparisonInsights (c1 :: c2 :: rest) ↔
      c1.issues > c2.issues) ∧
    (InsightKind.pullRequestsFirst ∈ generateComparisonInsights (c1 :: c2 :: rest) ↔
      c1.pullRequests > c2.pullRequests) ∧
    (InsightKind.commitsFirst ∈ generateComparisonInsights (c1 :: c2 :: rest) ↔
      c1.commits > c2.commits) ∧
    (InsightKind.reviewsFirst ∈ generateComparisonInsights (c1 :: c2 :: rest) ↔
      c1.reviews > c2.reviews) := by
  refine ⟨?_, ?_, ?_, ?_, ?_, ?_, ?_, ?_, ?_, ?_⟩ <;>
    simp only [generateComparisonInsights, List.mem_append, mem_ite_singleton,
      mem_ite_pair] <;>
    simp <;>
    first
      | omega
      | exact fun h => le_of_lt h

/-- Claim C1: starting from a store where the derived bucket is not yet
fetched, the first save of the fetch-monthly-data path succeeds; a second
call with the same derived bucket key and `forceUpdate = false` fails with
the already-exists error and leaves the store, including the payload and
timestamp written by the first call, unchanged; a second call with
`forceUpdate = true` fully replaces the stored payload and updates the
stored `lastUpdated` timestamp. -/
theorem c1_fetchMonthly_guard (org ms1 me1 ms2 me2 : Str)
    (acts1 acts2 : List MemberActivity) (t1 t2 : Str) (fs : Store)
    (horg : strTruthy org = true) (hms1 : strTruthy ms1 = true)
    (hme1 : strTruthy me1 = true) (hms2 : strTruthy ms2 = true)
    (hme2 : strTruthy me2 = true)
    (hkey : getMonthKey ms2 = getMonthKey ms1)
    (h0 : isMonthFetched org ms1 fs = false) :
    (fetchMonthlyData org ms1 me1 false acts1 t1 fs).1 =
      FetchOutcome.saved acts1.length ∧
    fetchMonthlyData org ms2 me2 false acts2 t2
        (fetchMonthlyData org ms1 me1 false acts1 t1 fs).2 =
      (FetchOutcome.alreadyExists ms2 me2,
        (fetchMonthlyData org ms1 me1 false acts1 t1 fs).2) ∧
    readFile (getMonthlyDataFile org (some (getMonthKey ms1)))
        (fetchMonthlyData org ms1 me1 false acts1 t1 fs).2 =
      some { organization := some org, monthKey := some (getMonthKey ms1)
             monthStart := some ms1, monthEnd := some me1
             lastUpdated := some t1, activities := some acts1, months := none } ∧
    readFile (getMonthlyDataFile org (some (getMonthKey ms1)))
        (fetchMonthlyData org ms2 me2 true acts2 t2
          (fetchMonthlyData org ms1 me1 false acts1 t1 fs).2).2 =
      some { organization := some org, monthKey := some (getMonthKey ms2)
             monthStart := some ms2, monthEnd := some me2
             lastUpdated := some t2, activities := some acts2, months := none } := by
  have hfs1 : fetchMonthlyData org ms1 me1 false acts1 t1 fs =
      (FetchOutcome.saved acts1.length,
        saveMonthlyActivities org ms1 me1 acts1 t1 fs) := by
    simp [fetchMonthlyData, horg, hms1, hme1, h0]
  have hread1 : readFile (getMonthlyDataFile org (some (getMonthKey ms1)))
      (saveMonthlyActivities org ms1 me1 acts1 t1 fs) =
      some { organization := some org, monthKey := some (getMonthKey ms1)
             monthStart := some ms1, monthEnd := some me1
             lastUpdated := some t1, activities := some acts1, months := none } :=
    readFile_writeFile_same _ _ _
  have hfetched1 : isMonthFetched org ms2
      (saveMonthlyActivities org ms1 me1 acts1 t1 fs) = true := by
    simp only [isMonthFetched, existsFile, hkey, hread1, Option.isSome_some]
  refine ⟨?_, ?_, ?_, ?_⟩
  · rw [hfs1]
  · rw [hfs1]
    simp [fetchMonthlyData, horg, hms2, hme2, hfetched1]
  · rw [hfs1]
    exact hread1
  · rw [hfs1]
    have hforce : fetchMonthlyData org ms2 me2 true acts2 t2
        (saveMonthlyActivities org ms1 me1 acts1 t1 fs) =
        (FetchOutcome.saved acts2.length,
          saveMonthlyActivities org ms2 me2 acts2 t2
            (saveMonthlyActivities org ms1 me1 acts1 t1 fs)) := by
      simp [fetchMonthlyData, horg, hms2, hme2]
    rw [hforce]
    have hfile : getMonthlyDataFile org (some (getMonthKey ms1)) =
        getMonthlyDataFile org (some (getMonthKey ms2)) := by rw [hkey]
    rw [hfile]
    exact readFile_writeFile_same _ _ _

/-- Witness for C1: concrete July 2025 bucket for `macromill`, second call
rejected with the already-exists outcome and an unchanged store. -/
theorem c1_fetchMonthly_guard_witness :
    fetchMonthlyData (str "macromill") (str "2025-07-01") (str "2025-07-31") false []
        (str "2025-08-01T00:00:00Z")
        ((fetchMonthlyData (str "macromill") (str "2025-07-01") (str "2025-07-31") false
          [fixMmKado] (str "2025-07-31T00:00:00Z") []).2) =
      (FetchOutcome.alreadyExists (str "2025-07-01") (str "2025-07-31"),
        (fetchMonthlyData (str "macromill") (str "2025-07-01") (str "2025-07-31") false
          [fixMmKado] (str "2025-07-31T00:00:00Z") []).2) :=
  (c1_fetchMonthly_guard (str "macromill") (str "2025-07-01") (str "2025-07-31")
    (str "2025-07-01") (str "2025-07-31") [fixMmKado] [] (str "2025-07-31T00:00:00Z")
    (str "2025-08-01T00:00:00Z") [] (by decide) (by decide) (by decide) (by decide)
    (by decide) (by decide) (by decide)).2.1

/-- The collecting step of `getFetchedMonths` never drops entries already
accumulated. -/
theorem fetchedMonthStep_preserves (fs : Store) :
    ∀ acc file x, x ∈ acc → x ∈ fetchedMonthStep fs acc file := by
  intro acc file x hx
  unfold fetchedMonthStep
  cases h : readFile file fs with
  | none => exact hx
  | some d =>
    simp only [h]
    by_cases hk : optTruthy d.monthKey = true
    · rw [if_pos hk]
      exact List.mem_append_left _ hx
    · rw [if_neg hk]
      cases d.months with
      | none => exact hx
      | some ms2 => exact List.mem_append_left _ hx

/-- A fold whose step preserves accumulated entries and adds `x` at file `f`
contains `x` whenever `f` occurs in the folded list. -/
theorem mem_foldl_adds {α β : Type} (step : List β → α → List β)
    (hpres : ∀ acc a x, x ∈ acc → x ∈ step acc a)
    {f : α} {x : β} (hadds : ∀ acc, x ∈ step acc f) :
    ∀ (l : List α) (acc : List β), f ∈ l → x ∈ l.foldl step acc := by
  intro l
  induction l with
  | nil => intro acc h; cases h
  | cons g gs ih =>
    intro acc hf
    rcases List.mem_cons.mp hf with heq | hmem
    · subst heq
      exact mem_foldl_of_mem step hpres gs (step acc f) x (hadds acc)
    · exact ih (step acc g) hmem

/-- Claim C10: after saving a month bucket the fetched-month listing has an
entry whose bucket key is the `YYYY-MM` derived from the saved range start;
deleting that bucket afterwards returns true and makes `isMonthFetched`
false; and every fetched-month listing is sorted ascending by its range
start. The `ms ≠ []` hypothesis reflects that the month-key model stands
for `moment(...).format('YYYY-MM')` on genuine date strings. -/
theorem c10_month_bucket_roundTrip (org ms me : Str) (acts : List MemberActivity)
    (now : Str) (fs : Store) (hms : ms ≠ []) :
    (∃ e ∈ getFetchedMonths org (saveMonthlyActivities org ms me acts now fs),
      e.monthKey = getMonthKey ms) ∧
    (deleteMonthlyActivities org ms (saveMonthlyActivities org ms me acts now fs)).1 =
      true ∧
    isMonthFetched org ms
      (deleteMonthlyActivities org ms (saveMonthlyActivities org ms me acts now fs)).2 =
      false ∧
    (∀ (org2 : Str) (fs2 : Store),
      List.Sorted (fun a b => strLe a.monthStart b.monthStart = true)
        (getFetchedMonths org2 fs2)) := by
  have hk7 : (getMonthKey ms).length ≤ 7 := by
    simp only [getMonthKey, List.length_take]
    exact min_le_left _ _
  have hk0 : getMonthKey ms ≠ [] := by
    intro h
    rcases List.take_eq_nil_iff.mp h with h7 | hnil
    · exact absurd h7 (by decide)
    · exact hms hnil
  have hpre : (org ++ str "-monthly-") <+:
      getMonthlyDataFile org (some (getMonthKey ms)) :=
    ⟨getMonthKey ms ++ str ".json", by simp [getMonthlyDataFile, List.append_assoc]⟩
  have hsuf : (str ".json") <:+ getMonthlyDataFile org (some (getMonthKey ms)) :=
    ⟨org ++ str "-monthly-" ++ getMonthKey ms, by
      simp [getMonthlyDataFile, List.append_assoc]⟩
  have hne : getMonthlyDataFile org (some (getMonthKey ms)) ≠
      (org ++ str "-monthly-activities.json") := by
    intro h
    have hlen := congrArg List.length h
    have l1 : (str "-monthly-").length = 9 := rfl
    have l2 : (str ".json").length = 5 := rfl
    have l3 : (str "-monthly-activities.json").length = 24 := rfl
    simp only [getMonthlyDataFile, List.length_append, l1, l2, l3] at hlen
    omega
  have hread : readFile (getMonthlyDataFile org (some (getMonthKey ms)))
      (saveMonthlyActivities org ms me acts now fs) =
      some { organization := some org, monthKey := some (getMonthKey ms)
             monthStart := some ms, monthEnd := some me
             lastUpdated := some now, activities := some acts, months := none } :=
    readFile_writeFile_same _ _ _
  have hex : existsFile (getMonthlyDataFile org (some (getMonthKey ms)))
      (saveMonthlyActivities org ms me acts now fs) = true := by
    show (readFile (getMonthlyDataFile org (some (getMonthKey ms)))
      (saveMonthlyActivities org ms me acts now fs)).isSome = true
    rw [hread]
    rfl
  have hkt : optTruthy (some (getMonthKey ms)) = true := by
    cases hk : getMonthKey ms with
    | nil => exact absurd hk hk0
    | cons c rest => simp [optTruthy, strTruthy]
  have hadds : ∀ acc : List FetchedMonth,
      ({ monthKey := getMonthKey ms, monthStart := ms, monthEnd := me
         lastUpdated := now } : FetchedMonth) ∈
        fetchedMonthStep (saveMonthlyActivities org ms me acts now fs) acc
          (getMonthlyDataFile org (some (getMonthKey ms))) := by
    intro acc
    unfold fetchedMonthStep
    rw [hread]
    simp [hkt]
  have hmemfile : getMonthlyDataFile org (some (getMonthKey ms)) ∈
      ((saveMonthlyActivities org ms me acts now fs).map (·.1)).filter (fun f =>
        decide ((org ++ str "-monthly-") <+: f) &&
        decide ((str ".json") <:+ f) &&
        decide (f ≠ org ++ str "-monthly-activities.json")) := by
    apply List.mem_filter.mpr
    refine ⟨List.mem_cons_self _ _, ?_⟩
    simp [hpre, hsuf, hne]
  refine ⟨?_, ?_, ?_, ?_⟩
  · refine ⟨{ monthKey := getMonthKey ms, monthStart := ms, monthEnd := me
              lastUpdated := now }, ?_, rfl⟩
    apply (List.mem_insertionSort _).mpr
    exact mem_foldl_adds _ (fetchedMonthStep_preserves _) hadds _ _ hmemfile
  · simp [deleteMonthlyActivities, hex]
  · have hex2 : (readFile (getMonthlyDataFile org (some (getMonthKey ms)))
        (saveMonthlyActivities org ms me acts now fs)).isSome = true := hex
    simp [deleteMonthlyActivities, isMonthFetched, existsFile, hex2,
      readFile_deleteFile_same]
  · intro org2 fs2
    exact List.sorted_insertionSort _ _

/-- Witness for C10: round trip of the July 2025 bucket for `macromill`. -/
theorem c10_month_bucket_roundTrip_witness :
    (deleteMonthlyActivities (str "macromill") (str "2025-07-01")
      (saveMonthlyActivities (str "macromill") (str "2025-07-01") (str "2025-07-31")
        [fixMmKado] (str "2025-07-31T00:00:00Z") [])).1 = true :=
  (c10_month_bucket_roundTrip (str "macromill") (str "2025-07-01") (str "2025-07-31")
    [fixMmKado] (str "2025-07-31T00:00:00Z") [] (by decide)).2.1

/-- Record stored in the flat `orgA` snapshot of the C9 counterexample. -/
def cexFlatRecord : MemberActivity :=
  { login := str "flat-user", name := none, avatar_url := []
    organization := none, organizationDisplayName := none, activities := [] }

/-- Store holding, for the same organization, both a monthly bucket file
(payload `[fixMmKado]`) and a flat snapshot file (payload
`[cexFlatRecord]`). -/
def cexStoreC9 : Store :=
  writeFile (str "orgA-activities.json")
    { organization := some (str "orgA"), monthKey := none, monthStart := none
      monthEnd := none, lastUpdated := some (str "2025-08-01T00:00:00Z")
      activities := some [cexFlatRecord], months := none }
    (saveMonthlyActivities (str "orgA") (str "2025-07-01") (str "2025-07-31")
      [fixMmKado] (str "2025-08-01T00:00:00Z") [])

/-- Counterexample to claim C9: although a monthly bucket exists for `orgA`
(with the `mm-kado` payload), the aggregate read path returns the flat
snapshot record and not the bucketed payload. -/
theorem c9_counterexample :
    (loadAllOrganizationsActivities [str "orgA"] cexStoreC9).1 =
      [{ login := str "flat-user", name := none, avatar_url := []
         organization := some (str "orgA")
         organizationDisplayName := some (str "orgA"), activities := [] }] ∧
    readFile (getMonthlyDataFile (str "orgA") (some (str "2025-07"))) cexStoreC9 ≠ none ∧
    fixMmKado ∉ (loadAllOrganizationsActivities [str "orgA"] cexStoreC9).1 := by
  decide

/-- Activities of the combined all-organizations flat file, empty when the
file is missing or without an activities array. -/
def allOrgsFileActivities (fs : Store) : List MemberActivity :=
  match readFile (str "all-organizations-activities.json") fs with
  | some d =>
    match d.activities with
    | some as => as
    | none => []
  | none => []

/-- Projection through the activities match of the fallback branch. -/
theorem match_activities_proj (oacts : Option (List MemberActivity))
    (f : List MemberActivity → List (Str × OrgStat))
    (step : List MemberActivity × List (Str × OrgStat)) (hstep1 : step.1 = []) :
    (match oacts with
     | some as => (as, f as)
     | none => step).1 =
    (match oacts with
     | some as => as
     | none => ([] : List MemberActivity)) := by
  cases oacts with
  | some as => rfl
  | none => exact hstep1

/-- Claim C9 as amended: the aggregate read path returns the concatenation
of the flat per-organization snapshots whenever any of them yields records,
and falls back to the combined all-organizations flat file only when every
per-organization snapshot is empty or missing; bucketed week or month data
never enters this computation, so the flat snapshot alone is returned even
when buckets exist for the same organization. -/
theorem c9_loadAll_flat_characterization (organizations : List Str) (fs : Store) :
    (loadAllOrganizationsActivities organizations fs).1 =
      (if 0 < (organizations.flatMap
          (fun org => (loadOrganizationActivities org fs).getD [])).length
       then organizations.flatMap
          (fun org => (loadOrganizationActivities org fs).getD [])
       else allOrgsFileActivities fs) := by
  have hfold : ∀ (orgs : List Str) (acc : List MemberActivity × List (Str × OrgStat)),
      (orgs.foldl (loadAllOrgsStep fs) acc).1 =
        acc.1 ++ orgs.flatMap (fun org => (loadOrganizationActivities org fs).getD []) := by
    intro orgs
    induction orgs with
    | nil => intro acc; simp
    | cons o os ih =>
      intro acc
      rw [List.foldl_cons, List.flatMap_cons, ih]
      cases h : loadOrganizationActivities o fs with
      | none => simp [loadAllOrgsStep, h]
      | some as => simp [loadAllOrgsStep, h]
  have hstep : (organizations.foldl (loadAllOrgsStep fs) ([], [])).1 =
      organizations.flatMap (fun org => (loadOrganizationActivities org fs).getD []) := by
    simpa using hfold organizations ([], [])
  simp only [loadAllOrganizationsActivities]
  rw [apply_ite (fun p : List MemberActivity × List (Str × OrgStat) => p.1), hstep]
  by_cases hpos : 0 < (organizations.flatMap
      (fun org => (loadOrganizationActivities org fs).getD [])).length
  · rw [if_pos hpos, if_pos hpos]
  · have hlen0 : (organizations.flatMap
        (fun org => (loadOrganizationActivities org fs).getD [])).length = 0 := by
      omega
    have hnil : organizations.flatMap
        (fun org => (loadOrganizationActivities org fs).getD []) = [] :=
      List.length_eq_zero.mp hlen0
    rw [if_neg hpos, if_neg hpos]
    simp only [allOrgsFileActivities]
    cases hall : readFile (str "all-organizations-activities.json") fs with
    | none => exact hstep.trans hnil
    | some d =>
      exact match_activities_proj d.activities
        (fun as => organizations.map (fun org =>
          (org, { count := (as.filter (fun a =>
              match a.organization with
              | some o => strTruthy o && decide (o = org)
              | none => false)).length
                  lastUpdated :=
                    match d.lastUpdated with
                    | some v => if v.isEmpty then none else some v
                    | none => none })))
        (organizations.foldl (loadAllOrgsStep fs) ([], []))
        (hstep.trans hnil)
